import Mathlib

/-!
# Verification of the yeetcode webhook bot

A shallow embedding of the yeetcode repository: a webhook-driven Discord bot
that verifies signed interactions, resolves a difficulty parameter, fetches a
random LeetCode question slug over GraphQL, and replies with a problem URL.

Sources embedded:
* `main.go` — the `run` startup/configuration phase, the `POST /` interaction
  handler, and `fetchLeetCodeQuestion` (difficulty resolution).
* `internal/leetcode` — `Difficulty`, `RandomDifficulty`, `NewClient`,
  `RandomQuestionQuery`, the request/response types and
  `Client.RandomQuestion`.

External effects (signature verification outcome, JSON decode outcome of the
request body, the transport outcome of the LeetCode call, the Discord reply
delivery outcome, and the `rand.IntN 3` draw) are made explicit inputs; the
handler becomes a pure function from those inputs to a trace of the effects it
performs (HTTP status writes, response bodies encoded, outbound calls).
-/

namespace Yeetcode

/-! ## The leetcode package -/

/-- `Difficulty` represents the difficulty of LeetCode questions.
In Go it is a defined string type, so it is a string here. -/
abbrev Difficulty := String

/-- `DifficultyEasy`, from the Go enumeration of difficulties. -/
def DifficultyEasy : Difficulty := "EASY"

/-- `DifficultyMedium`, from the Go enumeration of difficulties. -/
def DifficultyMedium : Difficulty := "MEDIUM"

/-- `DifficultyHard`, from the Go enumeration of difficulties. -/
def DifficultyHard : Difficulty := "HARD"

/-- `RandomDifficulty` computes a random LeetCode problem difficulty.
The Go code switches on `rand.IntN(3)`; the drawn value is the explicit
argument `n` here (so `n < 3` in any real execution; the Go `default` arm
maps anything else to easy, exactly as the source does). -/
def RandomDifficulty (n : Nat) : Difficulty :=
  match n with
  | 0 => DifficultyEasy
  | 1 => DifficultyMedium
  | 2 => DifficultyHard
  | _ => DifficultyEasy

/-- The GraphQL query to fetch a random LeetCode question
(the Go raw-string constant `RandomQuestionQuery`). -/
def RandomQuestionQuery : String :=
  "\nquery randomQuestion($categorySlug: String, $filters: QuestionListFilterInput) \x7b\n    randomQuestion(categorySlug: $categorySlug, filters: $filters) \x7b\n        titleSlug\n    \x7d\n\x7d"

/-- `RandomQuestionFilters` — filters set on the randomQuestion request.
Field names follow the Go JSON tags. -/
structure RandomQuestionFilters where
  difficulty : Difficulty
  tags : List String := []
deriving DecidableEq

/-- `RandomQuestionVariables` — variables of the randomQuestion request. -/
structure RandomQuestionVariables where
  categorySlug : String := ""
  filters : RandomQuestionFilters
deriving DecidableEq

/-- `RandomQuestionRequest` — the body sent to the randomQuestion GraphQL API.
(The Go field `Variables` keeps its Go capitalization: `variables` is a
reserved word in Lean.) -/
structure RandomQuestionRequest where
  query : String
  Variables : RandomQuestionVariables
deriving DecidableEq

/-- The innermost object of `RandomQuestionResponse`. -/
structure RandomQuestionInner where
  titleSlug : String := ""
deriving DecidableEq

/-- The `data` object of `RandomQuestionResponse`. -/
structure RandomQuestionData where
  randomQuestion : RandomQuestionInner := {}
deriving DecidableEq

/-- `RandomQuestionResponse` — the decoded response of the randomQuestion
GraphQL API: `\x7b data: \x7b randomQuestion: \x7b titleSlug \x7d \x7d \x7d`. -/
structure RandomQuestionResponse where
  data : RandomQuestionData := {}
deriving DecidableEq

/-- The outbound HTTP client carried by the leetcode `Client`
(only its configured timeout is observable in the source). -/
structure HttpClient where
  timeoutSeconds : Nat
deriving DecidableEq

/-- `Client` is the LeetCode API client. -/
structure Client where
  httpClient : HttpClient
deriving DecidableEq

/-- `NewClient` builds and returns a LeetCode API client ready for use:
its HTTP client has a 15 second timeout. -/
def NewClient : Client :=
  { httpClient := { timeoutSeconds := 15 } }

/-- An outbound HTTP request as `Client.RandomQuestion` builds it: method,
URL, headers, and the (pre-encoding) structured request body. -/
structure HttpRequest where
  method : String
  url : String
  headers : List (String × String)
  body : RandomQuestionRequest
deriving DecidableEq

/-- A JSON value, used to model `encoding/json` decoding of the upstream
response body. -/
inductive Json where
  | null
  | bool (b : Bool)
  | num (n : Int)
  | str (s : String)
  | arr (xs : List Json)
  | obj (fields : List (String × Json))

/-- Look up a key in a decoded JSON object; `encoding/json` sets a struct
field once per occurrence of its key, so the last occurrence wins. -/
def lookupField (fields : List (String × Json)) (key : String) : Option Json :=
  fields.foldl (fun acc kv => if kv.1 = key then some kv.2 else acc) none

/-- Decode a JSON value into a Go `string` field: a JSON string is taken
as-is, JSON `null` leaves the zero value `""`, anything else is a decode
error (per `encoding/json`). -/
def decodeStringField : Json → Except String String
  | Json.str s => Except.ok s
  | Json.null => Except.ok ""
  | _ => Except.error "json: cannot unmarshal value into field of type string"

/-- Decode the `randomQuestion` object: must be a JSON object or `null`;
a missing or null `titleSlug` leaves the zero value `""`. -/
def decodeInner : Json → Except String RandomQuestionInner
  | Json.null => Except.ok {}
  | Json.obj fields =>
    match lookupField fields "titleSlug" with
    | none => Except.ok {}
    | some j =>
      match decodeStringField j with
      | Except.error e => Except.error e
      | Except.ok s => Except.ok { titleSlug := s }
  | _ => Except.error "json: cannot unmarshal value into randomQuestion"

/-- Decode the `data` object: must be a JSON object or `null`;
a missing `randomQuestion` key leaves the zero value. -/
def decodeData : Json → Except String RandomQuestionData
  | Json.null => Except.ok {}
  | Json.obj fields =>
    match lookupField fields "randomQuestion" with
    | none => Except.ok {}
    | some j =>
      match decodeInner j with
      | Except.error e => Except.error e
      | Except.ok q => Except.ok { randomQuestion := q }
  | _ => Except.error "json: cannot unmarshal value into data"

/-- Decode a JSON document into `RandomQuestionResponse`, following
`encoding/json` semantics: the slug is read from the fixed path
`data.randomQuestion.titleSlug`; missing keys and nulls leave zero values;
keys of other names are ignored; a value of the wrong shape is an error. -/
def decodeRandomQuestionResponse : Json → Except String RandomQuestionResponse
  | Json.null => Except.ok {}
  | Json.obj fields =>
    match lookupField fields "data" with
    | none => Except.ok {}
    | some j =>
      match decodeData j with
      | Except.error e => Except.error e
      | Except.ok d => Except.ok { data := d }
  | _ => Except.error "json: cannot unmarshal value into RandomQuestionResponse"

/-- The HTTP response the transport hands back to `Client.RandomQuestion`:
a status code and a body. The body is `none` when it is not parseable JSON
(so the `json.NewDecoder(resp.Body).Decode` call fails at the syntax level),
otherwise the parsed JSON document. -/
structure HttpResponse where
  statusCode : Nat
  body : Option Json

/-- The exact HTTP request `Client.RandomQuestion` builds for a difficulty:
POST to the fixed GraphQL endpoint, Content-Type/Origin/Referer headers, and
a body holding the fixed query document with the difficulty filter variable. -/
def randomQuestionHttpRequest (difficulty : Difficulty) : HttpRequest :=
  { method := "POST"
  , url := "https://leetcode.com/graphql"
  , headers :=
      [ ("Content-Type", "application/json")
      , ("Origin", "https://leetcode.com")
      , ("Referer", "https://leetcode.com") ]
  , body :=
      { query := RandomQuestionQuery
      , Variables := { filters := { difficulty := difficulty } } } }

/-- `Client.RandomQuestion` retrieves a random LeetCode problem. The
transport (`httpClient.Do`) is the explicit argument `transport`: it is
applied exactly once, to `randomQuestionHttpRequest difficulty`. A transport
error or an undecodable body is surfaced as an error; otherwise the decoded
response is returned as-is — the response status code is never inspected and
the slug is not validated. -/
def RandomQuestion (difficulty : Difficulty)
    (transport : HttpRequest → Except String HttpResponse) :
    Except String RandomQuestionResponse :=
  match transport (randomQuestionHttpRequest difficulty) with
  | Except.error e => Except.error ("failed making http request: " ++ e)
  | Except.ok resp =>
    match resp.body with
    | none => Except.error "failed decoding http response"
    | some j =>
      match decodeRandomQuestionResponse j with
      | Except.error e => Except.error ("failed decoding http response: " ++ e)
      | Except.ok lcResp => Except.ok lcResp

/-! ## Difficulty resolution (`fetchLeetCodeQuestion` in `main.go`) -/

/-- A named option of an application command interaction (the handler only
reads `Name` and `StringValue`). -/
structure CommandOption where
  name : String
  value : String
deriving DecidableEq

/-- `strings.ToUpper` as `fetchLeetCodeQuestion` applies it to the option
value: uppercase each character (the three labels compared against are
ASCII, where Go and this mapping agree). -/
def stringsToUpper (s : String) : String :=
  String.mk (s.data.map Char.toUpper)

/-- The option-scanning loop of `fetchLeetCodeQuestion`: `difficultyOpt`
starts empty; the first option named "difficulty" sets it to the uppercased
string value and the loop breaks. -/
def findDifficultyOpt : List CommandOption → String
  | [] => ""
  | o :: rest =>
    if o.name = "difficulty" then stringsToUpper o.value else findDifficultyOpt rest

/-- The difficulty `switch` of `fetchLeetCodeQuestion`: the scanned (and
uppercased) option value is compared against the three enumerated labels;
any other value — including the empty string left by an absent option —
falls through to `RandomDifficulty`. `r` is the `rand.IntN 3` draw. -/
def resolveDifficulty (options : List CommandOption) (r : Nat) : Difficulty :=
  let difficultyOpt := findDifficultyOpt options
  if difficultyOpt = DifficultyEasy then DifficultyEasy
  else if difficultyOpt = DifficultyMedium then DifficultyMedium
  else if difficultyOpt = DifficultyHard then DifficultyHard
  else RandomDifficulty r

/-! ## The interaction handler (`POST /` in `main.go`) -/

/-- `discordgo.InteractionPing`. -/
def InteractionPing : Nat := 1

/-- `discordgo.InteractionApplicationCommand`. -/
def InteractionApplicationCommand : Nat := 2

/-- `discordgo.InteractionResponsePong`. -/
def InteractionResponsePong : Nat := 1

/-- `discordgo.InteractionResponseChannelMessageWithSource`. -/
def InteractionResponseChannelMessageWithSource : Nat := 4

/-- The parts of a decoded `discordgo.Interaction` the handler reads: the
numeric type tag and the application-command options. -/
structure Interaction where
  type : Nat
  options : List CommandOption := []
deriving DecidableEq

/-- An interaction response as the handler builds it: a numeric type and
optional message content. -/
structure InteractionResponse where
  type : Nat
  content : Option String := none
deriving DecidableEq

/-- The pong acknowledgment the handler encodes for a ping interaction. -/
def pongResponse : InteractionResponse :=
  { type := InteractionResponsePong }

/-- The reply the command branch builds from a fetched response:
channel-message-with-source with the problem URL as content
(`fmt.Sprintf("https://leetcode.com/problems/%s", slug)`). -/
def commandReply (lcResp : RandomQuestionResponse) : InteractionResponse :=
  { type := InteractionResponseChannelMessageWithSource
  , content := some ("https://leetcode.com/problems/" ++ lcResp.data.randomQuestion.titleSlug) }

/-- The external outcomes one request of the handler can observe:
whether `discordgo.VerifyInteraction` accepts the request, the result of
decoding the body as an interaction (`none` = decode error), whether
encoding the pong acknowledgment to the response writer succeeds, the
result of the LeetCode call, whether `discordClient.InteractionRespond`
succeeds, and the `rand.IntN 3` draw. -/
structure HandlerEnv where
  verifyOk : Bool
  decodeResult : Option Interaction
  pingEncodeOk : Bool
  fetchResult : Except String RandomQuestionResponse
  replyOk : Bool
  rand : Nat

/-- The trace of effects one handler invocation performs: every
`w.WriteHeader` call in order, every body successfully encoded to the
response writer, every call to the question source (with its difficulty),
and every reply-delivery attempt through the Discord client. -/
structure HandlerTrace where
  statusWrites : List Nat := []
  bodyWrites : List InteractionResponse := []
  leetcodeCalls : List Difficulty := []
  discordCalls : List InteractionResponse := []
deriving DecidableEq

/-- The `POST /` handler of `main.go`, as a pure function from the external
outcomes to the trace of effects it performs. Branch for branch:
verification failure → 400; body decode failure → 400; ping → write 200,
then encode the pong (on encode failure the code calls `WriteHeader(500)`
after having already written 200); a type that is neither ping nor
application command → 400; otherwise resolve the difficulty, call the
question source (failure → 500), build the reply, deliver it through the
Discord client (failure → 500), and finally write 200. -/
def handleInteraction (env : HandlerEnv) : HandlerTrace :=
  if env.verifyOk = false then
    { statusWrites := [400] }
  else
    match env.decodeResult with
    | none => { statusWrites := [400] }
    | some interaction =>
      if interaction.type = InteractionPing then
        if env.pingEncodeOk then
          { statusWrites := [200], bodyWrites := [pongResponse] }
        else
          { statusWrites := [200, 500] }
      else if interaction.type = InteractionApplicationCommand then
        let difficulty := resolveDifficulty interaction.options env.rand
        match env.fetchResult with
        | Except.error _ => { statusWrites := [500], leetcodeCalls := [difficulty] }
        | Except.ok lcResp =>
          let reply := commandReply lcResp
          if env.replyOk then
            { statusWrites := [200], leetcodeCalls := [difficulty], discordCalls := [reply] }
          else
            { statusWrites := [500], leetcodeCalls := [difficulty], discordCalls := [reply] }
      else
        { statusWrites := [400] }

/-! ## Startup configuration (`run` in `main.go`) -/

/-- The environment variables `run` reads. Go's `os.Getenv` returns the
empty string for an absent variable, so absence is the empty string. -/
structure ProcessEnv where
  axiomApiToken : String
  discordToken : String
  discordPublicKey : String

/-- The value of one hex digit, as `encoding/hex` accepts them. -/
def hexDigit (c : Char) : Option Nat :=
  if '0' ≤ c ∧ c ≤ '9' then some (c.toNat - '0'.toNat)
  else if 'a' ≤ c ∧ c ≤ 'f' then some (c.toNat - 'a'.toNat + 10)
  else if 'A' ≤ c ∧ c ≤ 'F' then some (c.toNat - 'A'.toNat + 10)
  else none

/-- `hex.DecodeString` on a character list: bytes are decoded two digits at
a time; an odd-length input or a non-hex character is an error (`none`). -/
def hexDecodeChars : List Char → Option (List Nat)
  | [] => some []
  | [_] => none
  | a :: b :: rest =>
    match hexDigit a, hexDigit b, hexDecodeChars rest with
    | some hi, some lo, some tail => some ((hi * 16 + lo) :: tail)
    | _, _, _ => none

/-- `hex.DecodeString`. -/
def hexDecodeString (s : String) : Option (List Nat) :=
  hexDecodeChars s.data

/-- The span exporter `run` selects: a local stdout trace exporter when the
Axiom API token is absent, the OTLP HTTP exporter to `api.axiom.co`
otherwise. -/
inductive Exporter where
  | stdout
  | otlpHttp (endpoint : String)
deriving DecidableEq

/-- The configuration `run` assembles before serving. -/
structure Config where
  exporter : Exporter
  discordToken : String
  publicKeyBytes : List Nat

/-- The configuration phase of `run`, in source order: select the exporter
(absent `AXIOM_API_TOKEN` switches to the stdout sink — not an error), then
require `DISCORD_TOKEN`, require `DISCORD_PUBLIC_KEY`, and hex-decode the
public key. Each failed check returns the corresponding error, which `main`
turns into exit code 1 before the server starts. The exporter constructors
and `discordgo.New` never fail for these fixed arguments and are modelled
as total. -/
def runConfig (env : ProcessEnv) : Except String Config :=
  let exporter :=
    if env.axiomApiToken = "" then Exporter.stdout
    else Exporter.otlpHttp "api.axiom.co"
  if env.discordToken = "" then
    Except.error "DISCORD_TOKEN must be provided"
  else if env.discordPublicKey = "" then
    Except.error "DISCORD_PUBLIC_KEY must be provided"
  else
    match hexDecodeString env.discordPublicKey with
    | none => Except.error "failed decoding application public key"
    | some bytes =>
      Except.ok { exporter := exporter, discordToken := env.discordToken, publicKeyBytes := bytes }

/-- `main`: a `run` error is exit code 1 before serving (`some 1`); on
configuration success the process goes on to serve (`none`: no startup
exit). -/
def startupExitCode (env : ProcessEnv) : Option Nat :=
  match runConfig env with
  | Except.error _ => some 1
  | Except.ok _ => none

/-! ## Helper lemmas -/

/-- `RandomDifficulty` always yields one of the three enumerated values,
whatever the drawn number is (the Go `default` arm maps out-of-range draws
to easy). -/
theorem RandomDifficulty_mem (n : Nat) :
    RandomDifficulty n = DifficultyEasy ∨ RandomDifficulty n = DifficultyMedium ∨
      RandomDifficulty n = DifficultyHard := by
  rcases n with _ | _ | _ | n
  · exact Or.inl rfl
  · exact Or.inr (Or.inl rfl)
  · exact Or.inr (Or.inr rfl)
  · exact Or.inl rfl

/-- Unfolding lemma for the difficulty `switch`. -/
theorem resolveDifficulty_eq (options : List CommandOption) (r : Nat) :
    resolveDifficulty options r =
      if findDifficultyOpt options = DifficultyEasy then DifficultyEasy
      else if findDifficultyOpt options = DifficultyMedium then DifficultyMedium
      else if findDifficultyOpt options = DifficultyHard then DifficultyHard
      else RandomDifficulty r := rfl

/-- The option-scanning loop picks exactly the first option named
"difficulty" (uppercased), or leaves the empty string. -/
theorem findDifficultyOpt_eq_find (options : List CommandOption) :
    findDifficultyOpt options =
      match options.find? (fun o => o.name == "difficulty") with
      | some o => stringsToUpper o.value
      | none => "" := by
  induction options with
  | nil => rfl
  | cons o rest ih =>
    by_cases h : o.name = "difficulty"
    · simp [findDifficultyOpt, List.find?, h]
    · have hb : (o.name == "difficulty") = false := beq_eq_false_iff_ne.mpr h
      simp [findDifficultyOpt, List.find?, h, hb, ih]

/-! ## Claim theorems -/

/-- C1: The resolved difficulty is always one of exactly
\x7bEASY, MEDIUM, HARD\x7d; when the interaction carries a "difficulty"
option whose value case-insensitively equals one of the three labels, that
exact difficulty is used; for any other value, or when the option is
absent, the result is the random fallback `RandomDifficulty` (which itself
is one of the three values, never empty or unrecognized text). -/
theorem resolved_difficulty_valid (options : List CommandOption) (r : Nat) :
    (resolveDifficulty options r = DifficultyEasy ∨
      resolveDifficulty options r = DifficultyMedium ∨
      resolveDifficulty options r = DifficultyHard) ∧
    (∀ o, options.find? (fun o => o.name == "difficulty") = some o →
      (stringsToUpper o.value = DifficultyEasy ∨ stringsToUpper o.value = DifficultyMedium ∨
        stringsToUpper o.value = DifficultyHard) →
      resolveDifficulty options r = stringsToUpper o.value) ∧
    (∀ o, options.find? (fun o => o.name == "difficulty") = some o →
      stringsToUpper o.value ≠ DifficultyEasy → stringsToUpper o.value ≠ DifficultyMedium →
      stringsToUpper o.value ≠ DifficultyHard →
      resolveDifficulty options r = RandomDifficulty r) ∧
    (options.find? (fun o => o.name == "difficulty") = none →
      resolveDifficulty options r = RandomDifficulty r) := by
  refine ⟨?_, ?_, ?_, ?_⟩
  · rw [resolveDifficulty_eq]
    split
    · exact Or.inl rfl
    · split
      · exact Or.inr (Or.inl rfl)
      · split
        · exact Or.inr (Or.inr rfl)
        · exact RandomDifficulty_mem r
  · intro o hfind hval
    have hfd : findDifficultyOpt options = stringsToUpper o.value := by
      rw [findDifficultyOpt_eq_find, hfind]
    rcases hval with h1 | h1 | h1 <;>
      simp [resolveDifficulty_eq, hfd, h1, DifficultyEasy, DifficultyMedium, DifficultyHard]
  · intro o hfind h1 h2 h3
    have hfd : findDifficultyOpt options = stringsToUpper o.value := by
      rw [findDifficultyOpt_eq_find, hfind]
    simp [resolveDifficulty_eq, hfd, h1, h2, h3]
  · intro hfind
    have hfd : findDifficultyOpt options = "" := by
      rw [findDifficultyOpt_eq_find, hfind]
    simp [resolveDifficulty_eq, hfd, DifficultyEasy, DifficultyMedium, DifficultyHard]

/-- Witness for C1: a lowercase "easy" option resolves to exactly EASY. -/
theorem resolved_difficulty_valid_witness :
    resolveDifficulty [{ name := "difficulty", value := "eAsY" }] 0 = DifficultyEasy := by
  have h :=
    (resolved_difficulty_valid [{ name := "difficulty", value := "eAsY" }] 0).2.1
      { name := "difficulty", value := "eAsY" } (by decide) (Or.inl (by decide))
  rw [h]; decide

/-- C3: A request failing validation — signature verification failure, an
undecodable body, or an interaction kind that is neither ping nor
application command — yields exactly one 400 status write, no call to the
question source, no reply delivery, and no other effect. -/
theorem invalid_request_400_no_calls (env : HandlerEnv)
    (h : env.verifyOk = false ∨ env.decodeResult = none ∨
      ∃ i, env.decodeResult = some i ∧
        i.type ≠ InteractionPing ∧ i.type ≠ InteractionApplicationCommand) :
    handleInteraction env = { statusWrites := [400] } := by
  rcases h with h | h | ⟨i, hi, h1, h2⟩
  · simp [handleInteraction, h]
  · unfold handleInteraction
    split
    · rfl
    · rw [h]
  · unfold handleInteraction
    split
    · rfl
    · rw [hi]
      simp [h1, h2]

/-- Witness for C3: a request that fails signature verification. -/
theorem invalid_request_400_no_calls_witness :
    handleInteraction
      { verifyOk := false, decodeResult := none, pingEncodeOk := true,
        fetchResult := Except.error "", replyOk := true, rand := 0 } =
      { statusWrites := [400] } :=
  invalid_request_400_no_calls _ (Or.inl rfl)

/-- C5: A verified, decoded ping interaction triggers no call to the
question source and no reply delivery through the Discord client; the first
(and, when encoding succeeds, only) status written is 200, and when
encoding succeeds the one encoded body is exactly the pong acknowledgment. -/
theorem ping_ack_no_outbound (env : HandlerEnv) (i : Interaction)
    (hv : env.verifyOk = true) (hd : env.decodeResult = some i)
    (ht : i.type = InteractionPing) :
    (handleInteraction env).leetcodeCalls = [] ∧
    (handleInteraction env).discordCalls = [] ∧
    (handleInteraction env).statusWrites.head? = some 200 ∧
    (env.pingEncodeOk = true →
      handleInteraction env = { statusWrites := [200], bodyWrites := [pongResponse] }) := by
  cases he : env.pingEncodeOk <;>
    simp [handleInteraction, hv, hd, ht, he]

/-- Witness for C5: a concrete verified ping interaction. -/
theorem ping_ack_no_outbound_witness :
    handleInteraction
      { verifyOk := true, decodeResult := some { type := 1 }, pingEncodeOk := true,
        fetchResult := Except.error "", replyOk := true, rand := 0 } =
      { statusWrites := [200], bodyWrites := [pongResponse] } :=
  (ping_ack_no_outbound _ { type := 1 } rfl rfl rfl).2.2.2 rfl

/-- C4: A verified, decoded command interaction whose fetch succeeds with
response `lcResp` and whose reply delivery succeeds produces exactly one
question-source call carrying the resolved difficulty, exactly one
delivered reply — a channel-message-with-source whose content is exactly
"https://leetcode.com/problems/" concatenated with the returned slug — and
exactly one status write, 200. -/
theorem command_success_reply (env : HandlerEnv) (i : Interaction)
    (lcResp : RandomQuestionResponse)
    (hv : env.verifyOk = true) (hd : env.decodeResult = some i)
    (ht : i.type = InteractionApplicationCommand)
    (hf : env.fetchResult = Except.ok lcResp) (hr : env.replyOk = true) :
    handleInteraction env =
      { statusWrites := [200],
        leetcodeCalls := [resolveDifficulty i.options env.rand],
        discordCalls :=
          [{ type := InteractionResponseChannelMessageWithSource,
             content := some ("https://leetcode.com/problems/" ++ lcResp.data.randomQuestion.titleSlug) }] } := by
  simp [handleInteraction, hv, hd, ht, hf, hr, commandReply,
    InteractionPing, InteractionApplicationCommand]

/-- Witness for C4: slug "two-sum" yields content exactly
"https://leetcode.com/problems/two-sum". -/
theorem command_success_reply_witness :
    handleInteraction
      { verifyOk := true,
        decodeResult := some { type := 2, options := [{ name := "difficulty", value := "EASY" }] },
        pingEncodeOk := true,
        fetchResult := Except.ok { data := { randomQuestion := { titleSlug := "two-sum" } } },
        replyOk := true, rand := 0 } =
      { statusWrites := [200], leetcodeCalls := [DifficultyEasy],
        discordCalls :=
          [{ type := 4, content := some "https://leetcode.com/problems/two-sum" }] } := by
  have h := command_success_reply
    { verifyOk := true,
      decodeResult := some { type := 2, options := [{ name := "difficulty", value := "EASY" }] },
      pingEncodeOk := true,
      fetchResult := Except.ok { data := { randomQuestion := { titleSlug := "two-sum" } } },
      replyOk := true, rand := 0 }
    { type := 2, options := [{ name := "difficulty", value := "EASY" }] }
    { data := { randomQuestion := { titleSlug := "two-sum" } } }
    rfl rfl rfl rfl rfl
  rw [h]; decide

/-- C6: A verified, decoded command interaction whose question-source call
fails yields exactly one 500 status write and no reply-delivery attempt
(the one effect besides the status is the failed question-source call). -/
theorem command_fetch_failure_500 (env : HandlerEnv) (i : Interaction) (e : String)
    (hv : env.verifyOk = true) (hd : env.decodeResult = some i)
    (ht : i.type = InteractionApplicationCommand)
    (hf : env.fetchResult = Except.error e) :
    handleInteraction env =
      { statusWrites := [500],
        leetcodeCalls := [resolveDifficulty i.options env.rand] } := by
  simp [handleInteraction, hv, hd, ht, hf,
    InteractionPing, InteractionApplicationCommand]

/-- Witness for C6: a concrete command interaction with a failing fetch. -/
theorem command_fetch_failure_500_witness :
    handleInteraction
      { verifyOk := true, decodeResult := some { type := 2 }, pingEncodeOk := true,
        fetchResult := Except.error "transport error", replyOk := true, rand := 1 } =
      { statusWrites := [500], leetcodeCalls := [DifficultyMedium] } := by
  have h := command_fetch_failure_500
    { verifyOk := true, decodeResult := some { type := 2 }, pingEncodeOk := true,
      fetchResult := Except.error "transport error", replyOk := true, rand := 1 }
    { type := 2 } "transport error" rfl rfl rfl rfl
  rw [h]; decide

/-- C2 (code bug): in the handshake branch, the code writes status 200
before encoding the acknowledgment; when that encode fails it calls
`WriteHeader(500)` as well — two status writes in one terminal branch,
contradicting the claim that no branch writes a status header twice. -/
theorem ping_encode_failure_double_status_write :
    (handleInteraction
      { verifyOk := true, decodeResult := some { type := 1 }, pingEncodeOk := false,
        fetchResult := Except.error "", replyOk := true, rand := 0 }).statusWrites
      = [200, 500] := rfl

/-- C7: Startup exits 1 before serving exactly when the bot token is
absent, the public key is absent, or the public key is not valid hex; and
whenever configuration succeeds, the trace exporter is the local stdout
sink exactly when the telemetry (Axiom) credential is absent. -/
theorem startup_config_check (env : ProcessEnv) :
    (startupExitCode env = some 1 ↔
      env.discordToken = "" ∨ env.discordPublicKey = "" ∨
        hexDecodeString env.discordPublicKey = none) ∧
    (∀ cfg, runConfig env = Except.ok cfg →
      (cfg.exporter = Exporter.stdout ↔ env.axiomApiToken = "")) := by
  constructor
  · unfold startupExitCode runConfig
    by_cases h1 : env.discordToken = ""
    · simp [h1]
    · by_cases h2 : env.discordPublicKey = ""
      · simp [h1, h2]
      · cases h3 : hexDecodeString env.discordPublicKey <;> simp [h1, h2, h3]
  · intro cfg hcfg
    unfold runConfig at hcfg
    by_cases h1 : env.discordToken = ""
    · simp [h1] at hcfg
    · by_cases h2 : env.discordPublicKey = ""
      · simp [h1, h2] at hcfg
      · cases h3 : hexDecodeString env.discordPublicKey
        · simp [h1, h2, h3] at hcfg
        · simp [h1, h2, h3] at hcfg
          by_cases h4 : env.axiomApiToken = "" <;> simp [h4] at hcfg ⊢ <;>
            simp [← hcfg]

/-- Witness for C7: an empty environment exits 1; a populated environment
with no Axiom token serves with the stdout exporter. -/
theorem startup_config_check_witness :
    startupExitCode { axiomApiToken := "", discordToken := "", discordPublicKey := "" }
      = some 1 ∧
    ∀ cfg, runConfig { axiomApiToken := "", discordToken := "t", discordPublicKey := "0a" }
      = Except.ok cfg → cfg.exporter = Exporter.stdout := by
  constructor
  · exact (startup_config_check
      { axiomApiToken := "", discordToken := "", discordPublicKey := "" }).1.mpr
      (Or.inl rfl)
  · intro cfg hcfg
    exact ((startup_config_check
      { axiomApiToken := "", discordToken := "t", discordPublicKey := "0a" }).2 cfg hcfg).mpr rfl

/-- C8: `Client.RandomQuestion` builds a single POST to the fixed GraphQL
endpoint whose body carries the fixed `randomQuestion` query document and
the resolved difficulty as its filter variable, with Origin and Referer
headers set; the client built by `NewClient` has a 15-second timeout; only
that one request reaches the transport; and the slug is decoded from the
fixed JSON path `data.randomQuestion.titleSlug`. -/
theorem random_question_request_shape (d : Difficulty) (s : String) :
    (randomQuestionHttpRequest d).method = "POST" ∧
    (randomQuestionHttpRequest d).url = "https://leetcode.com/graphql" ∧
    ("Origin", "https://leetcode.com") ∈ (randomQuestionHttpRequest d).headers ∧
    ("Referer", "https://leetcode.com") ∈ (randomQuestionHttpRequest d).headers ∧
    (randomQuestionHttpRequest d).body.query = RandomQuestionQuery ∧
    (randomQuestionHttpRequest d).body.Variables.filters.difficulty = d ∧
    NewClient.httpClient.timeoutSeconds = 15 ∧
    (∀ transportA transportB : HttpRequest → Except String HttpResponse,
      transportA (randomQuestionHttpRequest d) = transportB (randomQuestionHttpRequest d) →
      RandomQuestion d transportA = RandomQuestion d transportB) ∧
    decodeRandomQuestionResponse
        (Json.obj [("data", Json.obj [("randomQuestion", Json.obj [("titleSlug", Json.str s)])])])
      = Except.ok { data := { randomQuestion := { titleSlug := s } } } := by
  refine ⟨rfl, rfl, by simp [randomQuestionHttpRequest], by simp [randomQuestionHttpRequest],
    rfl, rfl, rfl, ?_, ?_⟩
  · intro transportA transportB hagree
    unfold RandomQuestion
    rw [hagree]
  · simp [decodeRandomQuestionResponse, decodeData, decodeInner, decodeStringField, lookupField]

/-- Witness for C8: the concrete EASY request, with two transports agreeing
on it, and a concrete slug decode. -/
theorem random_question_request_shape_witness :
    RandomQuestion DifficultyEasy (fun _ => Except.error "boom") =
      RandomQuestion DifficultyEasy (fun _ => Except.error "boom") ∧
    decodeRandomQuestionResponse
        (Json.obj [("data", Json.obj [("randomQuestion", Json.obj [("titleSlug", Json.str "two-sum")])])])
      = Except.ok { data := { randomQuestion := { titleSlug := "two-sum" } } } := by
  have h := random_question_request_shape DifficultyEasy "two-sum"
  exact ⟨h.2.2.2.2.2.2.2.1 _ _ rfl, h.2.2.2.2.2.2.2.2⟩

/-- C9: The client does not validate the slug: a decoded response carrying
an empty `titleSlug` is returned with success, whatever the status code
was; and the handler then delivers a reply whose content is exactly
"https://leetcode.com/problems/" with nothing appended. -/
theorem empty_slug_passthrough (d : Difficulty) (code : Nat)
    (env : HandlerEnv) (i : Interaction)
    (hv : env.verifyOk = true) (hd : env.decodeResult = some i)
    (ht : i.type = InteractionApplicationCommand)
    (hf : env.fetchResult = Except.ok { data := { randomQuestion := { titleSlug := "" } } })
    (hr : env.replyOk = true) :
    RandomQuestion d (fun _ =>
      Except.ok
        { statusCode := code,
          body := some (Json.obj
            [("data", Json.obj [("randomQuestion", Json.obj [("titleSlug", Json.str "")])])]) })
      = Except.ok { data := { randomQuestion := { titleSlug := "" } } } ∧
    (handleInteraction env).discordCalls =
      [{ type := InteractionResponseChannelMessageWithSource,
         content := some "https://leetcode.com/problems/" }] := by
  constructor
  · simp [RandomQuestion, decodeRandomQuestionResponse, decodeData, decodeInner,
      decodeStringField, lookupField]
  · simp [handleInteraction, hv, hd, ht, hf, hr, commandReply,
      InteractionPing, InteractionApplicationCommand]

/-- Witness for C9: a concrete command interaction receiving an empty slug. -/
theorem empty_slug_passthrough_witness :
    RandomQuestion DifficultyHard (fun _ =>
      Except.ok
        { statusCode := 200,
          body := some (Json.obj
            [("data", Json.obj [("randomQuestion", Json.obj [("titleSlug", Json.str "")])])]) })
      = Except.ok { data := { randomQuestion := { titleSlug := "" } } } ∧
    (handleInteraction
      { verifyOk := true, decodeResult := some { type := 2 }, pingEncodeOk := true,
        fetchResult := Except.ok { data := { randomQuestion := { titleSlug := "" } } },
        replyOk := true, rand := 0 }).discordCalls =
      [{ type := InteractionResponseChannelMessageWithSource,
         content := some "https://leetcode.com/problems/" }] :=
  empty_slug_passthrough DifficultyHard 200
    { verifyOk := true, decodeResult := some { type := 2 }, pingEncodeOk := true,
      fetchResult := Except.ok { data := { randomQuestion := { titleSlug := "" } } },
      replyOk := true, rand := 0 }
    { type := 2 } rfl rfl rfl rfl rfl

/-- C10: `Client.RandomQuestion` never inspects the response status code:
its result is the same for any two status codes with the same body; any
response whose body decodes (including a 403 or 500 with a JSON body)
yields success with whatever slug the body carries; and an error is
returned exactly on transport failure or a body that fails to parse or
decode. -/
theorem random_question_ignores_status (d : Difficulty) (body : Option Json)
    (codeA codeB : Nat) :
    RandomQuestion d (fun _ => Except.ok { statusCode := codeA, body := body }) =
      RandomQuestion d (fun _ => Except.ok { statusCode := codeB, body := body }) ∧
    (∀ j lcResp, decodeRandomQuestionResponse j = Except.ok lcResp →
      RandomQuestion d (fun _ => Except.ok { statusCode := codeA, body := some j }) =
        Except.ok lcResp) ∧
    (∀ e, RandomQuestion d (fun _ => Except.error e) =
      Except.error ("failed making http request: " ++ e)) ∧
    RandomQuestion d (fun _ => Except.ok { statusCode := codeA, body := none }) =
      Except.error "failed decoding http response" ∧
    (∀ j e, decodeRandomQuestionResponse j = Except.error e →
      RandomQuestion d (fun _ => Except.ok { statusCode := codeA, body := some j }) =
        Except.error ("failed decoding http response: " ++ e)) := by
  refine ⟨rfl, ?_, fun e => rfl, rfl, ?_⟩
  · intro j lcResp hj
    simp [RandomQuestion, hj]
  · intro j e hj
    simp [RandomQuestion, hj]

/-- Witness for C10: a 403 response with a JSON body decodes to success. -/
theorem random_question_ignores_status_witness :
    RandomQuestion DifficultyEasy (fun _ =>
      Except.ok
        { statusCode := 403,
          body := some (Json.obj
            [("data", Json.obj [("randomQuestion", Json.obj [("titleSlug", Json.str "two-sum")])])]) })
      = Except.ok { data := { randomQuestion := { titleSlug := "two-sum" } } } :=
  (random_question_ignores_status DifficultyEasy
      (some (Json.obj
        [("data", Json.obj [("randomQuestion", Json.obj [("titleSlug", Json.str "two-sum")])])]))
      403 500).2.1 _ _ (by rfl)

end Yeetcode
